import Mathlib

/-!
Verification of YTStreamSender (a browser control panel that sends text
messages into a YouTube Live Chat and views incoming chat).

The definitions below are a shallow embedding of the program's logic core:

* `src/App.tsx` — saved-message store (`handleSetMain`, `handleUndoDelete`,
  `handleUpdateMessageText`), chat-poller merge step (`pollChat`),
  send orchestration (`sendToYoutube`, `handleSendMessage`,
  `handleSendQuickMessage`);
* `src/services/youtubeService.ts` — `extractVideoId` and the four
  Gateway operations' pre-network phase.

JavaScript/TypeScript features are translated explicitly: `Record<number, T>`
becomes a function `Nat → Option T`, `T | null / undefined` becomes
`Option T`, array `slice`/`splice` become `take`/`drop` combinations,
JS truthiness of strings/numbers is spelled out (`isEmpty`, `= 0`), and
`async` handlers are split into their synchronous phase plus explicit
success/failure continuations; `setTimeout` registrations are returned as
a list of timer events.
-/

namespace YTStreamSender

/-- `SendingStatus` from `src/types.ts`. -/
inductive SendingStatus where
  | IDLE
  | SENDING
  | SUCCESS
  | ERROR
deriving DecidableEq, Repr

/-- `MessageState` from `src/types.ts`: per-saved-message send status. -/
structure MessageState where
  id : Nat
  status : SendingStatus
  errorMessage : Option String := none
deriving DecidableEq, Repr

/-- `SavedMessage` from `src/types.ts`, with the optional `isPinned`/`isMain`
flags modelled as `Bool` (JS `undefined` is falsy, i.e. `false`). -/
structure SavedMessage where
  id : Nat
  text : String
  isPinned : Bool := false
  isMain : Bool := false
deriving DecidableEq, Repr

/-- `handleSetMain` from `src/App.tsx` (lines 362-368):
`messages.map(msg => ({ ...msg, isMain: msg.id === id ? !msg.isMain : false }))`. -/
def handleSetMain (messages : List SavedMessage) (id : Nat) : List SavedMessage :=
  messages.map (fun msg => { msg with isMain := if msg.id = id then !msg.isMain else false })

/-- After `handleSetMain l i`, no element whose id differs from `i` is main,
so if no element of `l` carries id `i` the result has no main element. -/
theorem handleSetMain_cons (m : SavedMessage) (t : List SavedMessage) (i : Nat) :
    handleSetMain (m :: t) i
      = { m with isMain := if m.id = i then !m.isMain else false } :: handleSetMain t i := rfl

theorem handleSetMain_filter_of_not_mem (l : List SavedMessage) (i : Nat)
    (h : ∀ x ∈ l, x.id ≠ i) :
    (handleSetMain l i).filter (fun m => m.isMain) = [] := by
  induction l with
  | nil => rfl
  | cons m t ih =>
      have hm : m.id ≠ i := h m (List.mem_cons_self m t)
      have ht : ∀ x ∈ t, x.id ≠ i := fun x hx => h x (List.mem_cons_of_mem m hx)
      have hhead : ({ m with isMain := if m.id = i then !m.isMain else false } :
          SavedMessage).isMain = false := by simp [hm]
      rw [handleSetMain_cons, List.filter_cons, hhead]
      simpa using ih ht

/-- With pairwise-distinct ids, `handleSetMain` leaves at most one main. -/
theorem handleSetMain_at_most_one (l : List SavedMessage) (i : Nat)
    (hnd : (l.map (fun m => m.id)).Nodup) :
    ((handleSetMain l i).filter (fun m => m.isMain)).length ≤ 1 := by
  induction l with
  | nil => simp [handleSetMain]
  | cons m t ih =>
      simp only [List.map_cons, List.nodup_cons] at hnd
      obtain ⟨hnotmem, hndt⟩ := hnd
      by_cases hm : m.id = i
      · -- head may become main; no element of the tail carries id `i`
        have ht : ∀ x ∈ t, x.id ≠ i := by
          intro x hx heq
          exact hnotmem (by simpa [hm, heq] using List.mem_map_of_mem (fun m => m.id) hx)
        have htail := handleSetMain_filter_of_not_mem t i ht
        have hhead : ({ m with isMain := if m.id = i then !m.isMain else false } :
            SavedMessage).isMain = !m.isMain := by simp [hm]
        rw [handleSetMain_cons, List.filter_cons, hhead]
        by_cases hmain : m.isMain <;> simp [hmain, htail]
      · have hhead : ({ m with isMain := if m.id = i then !m.isMain else false } :
            SavedMessage).isMain = false := by simp [hm]
        rw [handleSetMain_cons, List.filter_cons, hhead]
        simpa using ih hndt

/-- With pairwise-distinct ids, setting main on a currently-non-main member `B`
makes `B` the unique main element. -/
theorem handleSetMain_filter_eq (l : List SavedMessage) (B : SavedMessage)
    (hnd : (l.map (fun m => m.id)).Nodup) (hB : B ∈ l) (hBm : B.isMain = false) :
    (handleSetMain l B.id).filter (fun m => m.isMain) = [{ B with isMain := true }] := by
  induction l with
  | nil => cases hB
  | cons m t ih =>
      simp only [List.map_cons, List.nodup_cons] at hnd
      obtain ⟨hnotmem, hndt⟩ := hnd
      rcases List.mem_cons.mp hB with hBm' | hBt
      · -- B is the head
        subst hBm'
        have ht : ∀ x ∈ t, x.id ≠ B.id := by
          intro x hx heq
          exact hnotmem (by simpa [heq] using List.mem_map_of_mem (fun m => m.id) hx)
        have htail := handleSetMain_filter_of_not_mem t B.id ht
        have hhead : ({ B with isMain := if B.id = B.id then !B.isMain else false } :
            SavedMessage).isMain = true := by simp [hBm]
        rw [handleSetMain_cons, List.filter_cons, hhead]
        simp [htail, hBm]
      · -- B is in the tail, so the head's id differs from B.id
        have hm : m.id ≠ B.id := by
          intro heq
          exact hnotmem (by simpa [heq] using List.mem_map_of_mem (fun m => m.id) hBt)
        have hhead : ({ m with isMain := if m.id = B.id then !m.isMain else false } :
            SavedMessage).isMain = false := by simp [hm]
        rw [handleSetMain_cons, List.filter_cons, hhead]
        simpa using ih hndt hBt

/-- C1 (amended): for a saved-message list whose ids are pairwise distinct,
`handleSetMain` leaves at most one message with `isMain = true`; and setting
main on a message `B` that is not currently main, while a different message
`A` is main, results in exactly one main message, namely `B` (every other
message's `isMain` is cleared). -/
theorem handleSetMain_mutual_exclusion (l : List SavedMessage)
    (hnd : (l.map (fun m => m.id)).Nodup)
    (A B : SavedMessage) (hA : A ∈ l) (hAm : A.isMain = true)
    (hB : B ∈ l) (hBm : B.isMain = false) (hAB : A.id ≠ B.id) :
    (∀ i : Nat, ((handleSetMain l i).filter (fun m => m.isMain)).length ≤ 1) ∧
    (handleSetMain l B.id).filter (fun m => m.isMain) = [{ B with isMain := true }] :=
  ⟨fun i => handleSetMain_at_most_one l i hnd, handleSetMain_filter_eq l B hnd hB hBm⟩

/-- Witness for `handleSetMain_mutual_exclusion` at a concrete two-element list
(`A` main, `B` not). -/
theorem handleSetMain_mutual_exclusion_witness :
    (handleSetMain
        [{ id := 1, text := "a", isPinned := false, isMain := true },
         { id := 2, text := "b", isPinned := false, isMain := false }] 2).filter
      (fun m => m.isMain)
      = [{ id := 2, text := "b", isPinned := false, isMain := true }] :=
  (handleSetMain_mutual_exclusion
    [{ id := 1, text := "a", isPinned := false, isMain := true },
     { id := 2, text := "b", isPinned := false, isMain := false }]
    (by decide)
    { id := 1, text := "a", isPinned := false, isMain := true }
    { id := 2, text := "b", isPinned := false, isMain := false }
    (by decide) (by decide) (by decide) (by decide) (by decide)).2

/-- C1 counterexample to the claim as stated. First conjunct: if message `B`
(id 2) is itself already main while a different message `A` (id 1) is main,
`handleSetMain` on `B` toggles `B` off and yields zero main messages, not
"exactly one, namely B". Second conjunct: with duplicate ids (two non-main
messages both with id 1), `handleSetMain` toggles both on, yielding two main
messages, violating "at most one message has isMain=true". -/
theorem handleSetMain_claim_counterexample :
    ¬ (((handleSetMain
          [{ id := 1, text := "a", isPinned := false, isMain := true },
           { id := 2, text := "b", isPinned := false, isMain := true }] 2).filter
          (fun m => m.isMain)).length = 1) ∧
    ((handleSetMain
        [{ id := 1, text := "c", isPinned := false, isMain := false },
         { id := 1, text := "d", isPinned := false, isMain := false }] 1).filter
        (fun m => m.isMain)).length = 2 := by
  constructor
  · decide
  · decide

/-! ## Chat poller merge step (`pollChat` in `src/App.tsx`, lines 143-149) -/

/-- Author fields of `ChatMessage` from `src/types.ts` (as built in `pollChat`). -/
structure ChatAuthor where
  displayName : String
  profileImageUrl : String
  isChatOwner : Bool
  isChatModerator : Bool
  isVerified : Bool
deriving DecidableEq, Repr

/-- `ChatMessage` from `src/types.ts`. -/
structure ChatMessage where
  id : String
  publishedAt : String
  messageText : String
  author : ChatAuthor
deriving DecidableEq, Repr

/-- JavaScript `array.slice(-n)`: the last `n` elements (the whole array when
it is shorter than `n`). -/
def jsSliceLast (l : List α) (n : Nat) : List α := l.drop (l.length - n)

/-- The `uniqueNew` filter inside the `setChatMessages` updater:
`newMessages.filter(m => !existingIds.has(m.id))`, where `existingIds` is the
set of ids of `prev`. -/
def uniqueNewMessages (prev incoming : List ChatMessage) : List ChatMessage :=
  incoming.filter (fun m => !(prev.any (fun p => p.id = m.id)))

/-- The merge step of `pollChat` (`src/App.tsx` lines 143-149), with the local
`uniqueNew` binding factored out as `uniqueNewMessages`:
`if (uniqueNew.length === 0) return prev; return [...prev, ...uniqueNew].slice(-200)`. -/
def mergeChatMessages (prev incoming : List ChatMessage) : List ChatMessage :=
  if (uniqueNewMessages prev incoming).isEmpty then prev
  else jsSliceLast (prev ++ uniqueNewMessages prev incoming) 200

/-- C2: starting from a log within the 200-entry cap (the invariant the merge
step itself maintains from the initial empty log), the merge step keeps the
log at no more than 200 entries, evicts only from the front when the cap is
exceeded (the result is a suffix of `prev ++ uniqueNew`, so the oldest entries
go first and the survivors keep their relative order), and the result length
is exactly `min (|prev| + |uniqueNew|) 200`. -/
theorem mergeChatMessages_bounded_fifo (prev incoming : List ChatMessage)
    (h : prev.length ≤ 200) :
    (mergeChatMessages prev incoming).length ≤ 200 ∧
    (mergeChatMessages prev incoming) <:+ (prev ++ uniqueNewMessages prev incoming) ∧
    (mergeChatMessages prev incoming).length
      = min (prev.length + (uniqueNewMessages prev incoming).length) 200 := by
  by_cases hu : (uniqueNewMessages prev incoming).isEmpty
  · have hnil : uniqueNewMessages prev incoming = [] := List.isEmpty_eq_true.mp hu
    rw [mergeChatMessages, if_pos hu, hnil]
    simp only [List.append_nil, List.length_nil, Nat.add_zero]
    exact ⟨h, List.suffix_refl prev, (Nat.min_eq_left h).symm⟩
  · rw [mergeChatMessages, if_neg hu]
    unfold jsSliceLast
    refine ⟨?_, List.drop_suffix _ _, ?_⟩
    · simp only [List.length_drop]
      omega
    · simp only [List.length_drop, List.length_append]
      omega

/-- Witness for `mergeChatMessages_bounded_fifo` at a concrete one-entry log. -/
theorem mergeChatMessages_bounded_fifo_witness :
    (mergeChatMessages
        [{ id := "x", publishedAt := "t0", messageText := "hi",
           author := { displayName := "n", profileImageUrl := "", isChatOwner := false,
                       isChatModerator := false, isVerified := false } }] []).length ≤ 200 :=
  (mergeChatMessages_bounded_fifo
    [{ id := "x", publishedAt := "t0", messageText := "hi",
       author := { displayName := "n", profileImageUrl := "", isChatOwner := false,
                   isChatModerator := false, isVerified := false } }] []
    (by decide)).1

/-- C7: when every incoming item's id already occurs in the current log, the
merge step returns the log unchanged (no duplicate added, no reorder). -/
theorem mergeChatMessages_duplicates_noop (prev incoming : List ChatMessage)
    (h : ∀ m ∈ incoming, ∃ p ∈ prev, p.id = m.id) :
    mergeChatMessages prev incoming = prev := by
  have hnil : uniqueNewMessages prev incoming = [] := by
    unfold uniqueNewMessages
    rw [List.filter_eq_nil_iff]
    intro m hm
    obtain ⟨p, hp, hpid⟩ := h m hm
    have hany : prev.any (fun p => p.id = m.id) = true :=
      List.any_eq_true.mpr ⟨p, hp, decide_eq_true hpid⟩
    simp [hany]
  rw [mergeChatMessages, if_pos (by rw [hnil]; rfl)]

/-- Witness for `mergeChatMessages_duplicates_noop` at a concrete log where
the incoming item's id is already present. -/
theorem mergeChatMessages_duplicates_noop_witness :
    mergeChatMessages
        [{ id := "x", publishedAt := "t0", messageText := "hi",
           author := { displayName := "n", profileImageUrl := "", isChatOwner := false,
                       isChatModerator := false, isVerified := false } }]
        [{ id := "x", publishedAt := "t1", messageText := "again",
           author := { displayName := "n2", profileImageUrl := "", isChatOwner := false,
                       isChatModerator := false, isVerified := false } }]
      = [{ id := "x", publishedAt := "t0", messageText := "hi",
           author := { displayName := "n", profileImageUrl := "", isChatOwner := false,
                       isChatModerator := false, isVerified := false } }] :=
  mergeChatMessages_duplicates_noop _ _ (by decide)

/-! ## Polling interval update (`pollChat` in `src/App.tsx`, line 127) -/

/-- JavaScript `v || d` for a possibly-absent number: the default applies when
the value is absent (`undefined`) or `0` (the only falsy integer). -/
def jsNumOrDefault (v : Option Int) (d : Int) : Int :=
  match v with
  | none => d
  | some x => if x = 0 then d else x

/-- `setChatPollingInterval(Math.max(data.pollingIntervalMillis || 3000, 1000))`
from `src/App.tsx` line 127. -/
def updatePollingInterval (pollingIntervalMillis : Option Int) : Int :=
  max (jsNumOrDefault pollingIntervalMillis 3000) 1000

/-- C9 counterexample to the claim as stated: the suggested value `0` is
present, yet the stored interval is `3000`, not `max 0 1000 = 1000` — the
JavaScript `||` treats a present `0` as if the suggestion were absent. -/
theorem updatePollingInterval_counterexample :
    ¬ (updatePollingInterval (some 0) = max 0 1000) := by decide

/-- C9 (amended): for every present nonzero suggested value `v` the stored
interval is `max v 1000` (i.e. the suggestion clamped to a 1000 ms floor);
when the suggestion is absent — or `0`, which JavaScript `||` conflates with
absent — the stored interval is the 3000 ms default. -/
theorem updatePollingInterval_clamp (v : Int) (hv : v ≠ 0) :
    updatePollingInterval (some v) = max v 1000 ∧
    updatePollingInterval none = 3000 ∧
    updatePollingInterval (some 0) = 3000 := by
  refine ⟨?_, rfl, rfl⟩
  simp [updatePollingInterval, jsNumOrDefault, hv]

/-- Witness for `updatePollingInterval_clamp` at `v = 500` (clamped to 1000). -/
theorem updatePollingInterval_clamp_witness :
    updatePollingInterval (some 500) = max 500 1000 :=
  (updatePollingInterval_clamp 500 (by decide)).1

/-! ## Send orchestration (`src/App.tsx`, lines 411-457)

`async` handlers are split into a synchronous phase (returning the updated
state and the Gateway request, if any) and explicit success/failure
continuations. `setTimeout` registrations appear as returned timer events. -/

/-- A `sendMessageToChat` Gateway call as issued by `sendToYoutube`. -/
structure ChatSendRequest where
  liveChatId : String
  messageText : String
  token : String
deriving DecidableEq, Repr

/-- Actions scheduled with `setTimeout` by the send handlers. -/
inductive TimerAction where
  | setSavedIdle (id : Nat)
  | setQuickIdle
deriving DecidableEq, Repr

/-- The guard of `sendToYoutube` (`src/App.tsx` line 412):
`if (!liveDetails?.liveChatId || !accessToken) return;`. A missing
`liveDetails`, a `null`/empty `liveChatId` and an empty token are all falsy. -/
def sendToYoutubeBlocked (liveChatId : Option String) (accessToken : String) : Bool :=
  (match liveChatId with
   | none => true
   | some lc => lc.isEmpty) || accessToken.isEmpty

/-- The Gateway call issued by `sendToYoutube` (`src/App.tsx` lines 411-419):
`none` when the guard returns early, otherwise the `sendMessageToChat` request. -/
def sendToYoutubeRequest (liveChatId : Option String) (accessToken : String)
    (text : String) : Option ChatSendRequest :=
  match liveChatId with
  | none => none
  | some lc =>
      if lc.isEmpty || accessToken.isEmpty then none
      else some { liveChatId := lc, messageText := text, token := accessToken }

/-- `Record<number, MessageState>` update `{ ...prev, [id]: s }`. -/
def setMessageState (states : Nat → Option MessageState) (id : Nat) (s : MessageState) :
    Nat → Option MessageState :=
  fun j => if j = id then some s else states j

/-- Synchronous phase of `handleSendMessage` (`src/App.tsx` lines 422-437):
the slot is set to SENDING unconditionally, then `sendToYoutube` decides
whether a Gateway request is issued. -/
def handleSendMessage (states : Nat → Option MessageState) (liveChatId : Option String)
    (accessToken : String) (id : Nat) (text : String) :
    (Nat → Option MessageState) × Option ChatSendRequest :=
  (setMessageState states id { id := id, status := .SENDING },
   sendToYoutubeRequest liveChatId accessToken text)

/-- Success continuation of `handleSendMessage`: SUCCESS now, IDLE scheduled
after 2000 ms. -/
def handleSendMessageSuccess (states : Nat → Option MessageState) (id : Nat) :
    (Nat → Option MessageState) × List (Nat × TimerAction) :=
  (setMessageState states id { id := id, status := .SUCCESS },
   [(2000, TimerAction.setSavedIdle id)])

/-- Failure continuation of `handleSendMessage` (`src/App.tsx` lines 433-435):
ERROR with the failure's message; nothing is scheduled. -/
def handleSendMessageFailure (states : Nat → Option MessageState) (id : Nat)
    (err : String) : (Nat → Option MessageState) × List (Nat × TimerAction) :=
  (setMessageState states id { id := id, status := .ERROR, errorMessage := some err },
   [])

/-- `handleUpdateMessageText` (`src/App.tsx` lines 279-291): replace the text of
the message with the given id and reset its slot to IDLE unless it already is
IDLE (a missing slot reads as `undefined`, which is `!== IDLE`). -/
def handleUpdateMessageText (messages : List SavedMessage)
    (states : Nat → Option MessageState) (id : Nat) (text : String) :
    List SavedMessage × (Nat → Option MessageState) :=
  (messages.map (fun msg => if msg.id = id then { msg with text := text } else msg),
   if (match states id with
       | some s => decide (s.status ≠ .IDLE)
       | none => true)
   then setMessageState states id { id := id, status := .IDLE }
   else states)

/-- JavaScript's `String.prototype.trim` whitespace set (ECMAScript WhiteSpace
and LineTerminator code points). -/
def isJsWhitespace (c : Char) : Bool :=
  c = ' ' || c = '\t' || c = '\n' || c = '\r' ||
  c.val = 11 || c.val = 12 || c.val = 0xa0 || c.val = 0x1680 ||
  (0x2000 ≤ c.val && c.val ≤ 0x200a) || c.val = 0x2028 || c.val = 0x2029 ||
  c.val = 0x202f || c.val = 0x205f || c.val = 0x3000 || c.val = 0xfeff

/-- JavaScript `s.trim()`. -/
def jsTrim (s : String) : String :=
  String.mk (((s.data.dropWhile isJsWhitespace).reverse.dropWhile isJsWhitespace).reverse)

/-- Synchronous phase of `handleSendQuickMessage` (`src/App.tsx` lines 440-457):
`if (!quickMessage.trim()) return;` then SENDING and `sendToYoutube`.
Returns (input text, status, Gateway request). -/
def handleSendQuickMessage (quickMessage : String) (quickStatus : SendingStatus)
    (liveChatId : Option String) (accessToken : String) :
    String × SendingStatus × Option ChatSendRequest :=
  if (jsTrim quickMessage).isEmpty then (quickMessage, quickStatus, none)
  else (quickMessage, .SENDING, sendToYoutubeRequest liveChatId accessToken quickMessage)

/-- Success continuation of `handleSendQuickMessage`: SUCCESS, input cleared,
IDLE scheduled after 2000 ms. Returns (input text, status, timers). -/
def handleSendQuickMessageSuccess : String × SendingStatus × List (Nat × TimerAction) :=
  ("", .SUCCESS, [(2000, TimerAction.setQuickIdle)])

/-- Failure continuation of `handleSendQuickMessage` (`src/App.tsx` lines
451-455): ERROR (the quick slot stores no message — the failure text goes to a
browser alert), then IDLE scheduled after 3000 ms. Returns
(status, timers, alerts). -/
def handleSendQuickMessageFailure (err : String) :
    SendingStatus × List (Nat × TimerAction) × List String :=
  (.ERROR, [(3000, TimerAction.setQuickIdle)], ["Помилка надсилання: " ++ err])

/-- C3 counterexample to the claim as stated: with no live-chat id, a send on
saved-message id 5 makes no Gateway call, but the slot's sending-status is not
left unchanged — it is set to SENDING before the guard runs. -/
theorem handleSendMessage_claim_counterexample :
    (handleSendMessage (fun _ => none) none "tok" 5 "hi").2 = none ∧
    ¬ ((handleSendMessage (fun _ => none) none "tok" 5 "hi").1 5
        = (fun _ : Nat => (none : Option MessageState)) 5) := by
  constructor
  · rfl
  · intro hcontra
    simp [handleSendMessage, setMessageState] at hcontra

/-- C3 (amended): when the live-chat id is absent (or empty) or the access
token is absent, no Gateway call is made, but the targeted slot's status is
set to SENDING (and, with no callback to fire, left there); every other slot
is unchanged. -/
theorem handleSendMessage_no_call_when_blocked
    (states : Nat → Option MessageState) (liveChatId : Option String)
    (accessToken : String) (id : Nat) (text : String)
    (h : sendToYoutubeBlocked liveChatId accessToken = true) :
    (handleSendMessage states liveChatId accessToken id text).2 = none ∧
    (handleSendMessage states liveChatId accessToken id text).1 id
      = some { id := id, status := .SENDING } ∧
    ∀ j : Nat, j ≠ id →
      (handleSendMessage states liveChatId accessToken id text).1 j = states j := by
  refine ⟨?_, ?_, ?_⟩
  · unfold handleSendMessage sendToYoutubeRequest
    unfold sendToYoutubeBlocked at h
    match liveChatId with
    | none => rfl
    | some lc =>
        simp only at h ⊢
        rw [if_pos h]
  · simp [handleSendMessage, setMessageState]
  · intro j hj
    simp [handleSendMessage, setMessageState, hj]

/-- Witness for `handleSendMessage_no_call_when_blocked` with an absent
live-chat id. -/
theorem handleSendMessage_no_call_when_blocked_witness :
    (handleSendMessage (fun _ => none) none "tok" 5 "hi").2 = none ∧
    (handleSendMessage (fun _ => none) none "tok" 5 "hi").1 5
      = some { id := 5, status := .SENDING } :=
  ⟨(handleSendMessage_no_call_when_blocked (fun _ => none) none "tok" 5 "hi" rfl).1,
   (handleSendMessage_no_call_when_blocked (fun _ => none) none "tok" 5 "hi" rfl).2.1⟩

/-- C4 counterexample to the claim as stated: the quick-message variant does
not follow the saved-message protocol on failure — it schedules an automatic
ERROR→IDLE transition after 3000 ms (and its slot carries no failure message;
the text goes to a browser alert). -/
theorem handleSendQuickMessageFailure_counterexample :
    ¬ ((handleSendQuickMessageFailure "boom").2.1 = []) := by decide

/-- C4 (amended): a failing saved-message send sets that slot to ERROR with
the failure's message attached and schedules no timer, so it never
auto-transitions back to IDLE; the next edit of that message's text resets the
slot to IDLE. The quick-message variant diverges from this protocol: on
failure its slot is set to ERROR without a stored message (the text is
surfaced via an alert) and an ERROR→IDLE transition is scheduled after 3000 ms. -/
theorem sendFailure_behaviour (states : Nat → Option MessageState) (id : Nat)
    (err : String) (messages : List SavedMessage) (text : String) :
    (handleSendMessageFailure states id err).1 id
      = some { id := id, status := .ERROR, errorMessage := some err } ∧
    (handleSendMessageFailure states id err).2 = [] ∧
    (∀ j : Nat, j ≠ id → (handleSendMessageFailure states id err).1 j = states j) ∧
    (handleUpdateMessageText messages (handleSendMessageFailure states id err).1 id
        text).2 id
      = some { id := id, status := .IDLE } ∧
    (handleSendQuickMessageFailure err).1 = .ERROR ∧
    (handleSendQuickMessageFailure err).2.1 = [(3000, TimerAction.setQuickIdle)] ∧
    (handleSendQuickMessageFailure err).2.2 = ["Помилка надсилання: " ++ err] := by
  have hslot : (handleSendMessageFailure states id err).1 id
      = some { id := id, status := .ERROR, errorMessage := some err } := by
    simp [handleSendMessageFailure, setMessageState]
  refine ⟨hslot, rfl, ?_, ?_, rfl, rfl, rfl⟩
  · intro j hj
    simp [handleSendMessageFailure, setMessageState, hj]
  · rw [handleUpdateMessageText]
    simp only [hslot]
    simp [setMessageState]

/-- Dropping every element keeps nothing: helper for all-whitespace trims. -/
theorem jsTrim_all_whitespace (s : String) (h : ∀ c ∈ s.data, isJsWhitespace c = true) :
    jsTrim s = String.mk [] := by
  unfold jsTrim
  have h1 : s.data.dropWhile isJsWhitespace = [] :=
    List.dropWhile_eq_nil_iff.mpr h
  rw [h1]
  rfl

/-- C10: when the quick-message input is empty or all-whitespace, the quick
send is a no-op: the input text and the status are returned unchanged and no
Gateway request is issued. -/
theorem handleSendQuickMessage_blank_noop (quickMessage : String)
    (quickStatus : SendingStatus) (liveChatId : Option String) (accessToken : String)
    (h : ∀ c ∈ quickMessage.data, isJsWhitespace c = true) :
    handleSendQuickMessage quickMessage quickStatus liveChatId accessToken
      = (quickMessage, quickStatus, none) := by
  rw [handleSendQuickMessage, if_pos]
  rw [jsTrim_all_whitespace quickMessage h]
  rfl

/-- Witness for `handleSendQuickMessage_blank_noop` on a whitespace-only input
while connected (so only the blank guard prevents the call). -/
theorem handleSendQuickMessage_blank_noop_witness :
    handleSendQuickMessage "  " SendingStatus.IDLE (some "chat1") "tok"
      = ("  ", SendingStatus.IDLE, none) :=
  handleSendQuickMessage_blank_noop "  " SendingStatus.IDLE (some "chat1") "tok" (by decide)

/-! ## Undo of a deleted saved message (`src/App.tsx`, lines 324-338) -/

/-- `DeletedMessageState` from `src/App.tsx` (lines 19-22). -/
structure DeletedMessageState where
  message : SavedMessage
  index : Nat
deriving DecidableEq, Repr

/-- The slice of application state `handleUndoDelete` touches: the saved list
and the single-slot undo buffer. (The 5-second expiry timer only clears
`lastDeleted`; it carries no data and is not needed for these properties.) -/
structure UndoState where
  messages : List SavedMessage
  lastDeleted : Option DeletedMessageState
deriving DecidableEq, Repr

/-- JavaScript `arr.splice(i, 0, a)` for `i ≤ arr.length`: insert `a` at
position `i`. -/
def jsSpliceInsert (l : List α) (i : Nat) (a : α) : List α :=
  l.take i ++ a :: l.drop i

/-- `handleUndoDelete` from `src/App.tsx` (lines 324-338): reinsert the saved
snapshot at `min(lastDeleted.index, messages.length)` and clear the snapshot;
a missing snapshot returns early. -/
def handleUndoDelete (s : UndoState) : UndoState :=
  match s.lastDeleted with
  | none => s
  | some d =>
      { messages := jsSpliceInsert s.messages (min d.index s.messages.length) d.message,
        lastDeleted := none }

/-- C5: with a non-empty undo snapshot `{message, index}`, undo inserts
exactly that message at position `k = min index |messages|` (the list grows by
one, position `k` holds the message, the prefix before `k` and the suffix
after it are untouched), clears the snapshot, and a second undo without an
intervening delete is a no-op. -/
theorem handleUndoDelete_restores (s : UndoState) (d : DeletedMessageState)
    (hs : s.lastDeleted = some d) :
    (handleUndoDelete s).messages.length = s.messages.length + 1 ∧
    (handleUndoDelete s).messages[min d.index s.messages.length]? = some d.message ∧
    (handleUndoDelete s).messages.take (min d.index s.messages.length)
      = s.messages.take (min d.index s.messages.length) ∧
    (handleUndoDelete s).messages.drop (min d.index s.messages.length + 1)
      = s.messages.drop (min d.index s.messages.length) ∧
    (handleUndoDelete s).lastDeleted = none ∧
    handleUndoDelete (handleUndoDelete s) = handleUndoDelete s := by
  have hk : min d.index s.messages.length ≤ s.messages.length := Nat.min_le_right _ _
  have htl : (s.messages.take (min d.index s.messages.length)).length
      = min d.index s.messages.length := by
    rw [List.length_take]
    omega
  have hout : handleUndoDelete s
      = { messages := jsSpliceInsert s.messages (min d.index s.messages.length) d.message,
          lastDeleted := none } := by
    simp only [handleUndoDelete, hs]
  have hout2 : handleUndoDelete (handleUndoDelete s) = handleUndoDelete s := by
    rw [hout]
    simp only [handleUndoDelete]
  refine ⟨?_, ?_, ?_, ?_, ?_, hout2⟩
  · rw [hout]
    simp only [jsSpliceInsert, List.length_append, List.length_cons, List.length_drop, htl]
    omega
  · rw [hout]
    show (jsSpliceInsert s.messages (min d.index s.messages.length) d.message)[_]? = _
    rw [jsSpliceInsert, List.getElem?_append_right (by omega), htl]
    simp
  · rw [hout]
    show List.take _ (jsSpliceInsert s.messages (min d.index s.messages.length) d.message) = _
    rw [jsSpliceInsert, List.take_left' htl]
  · rw [hout]
    show List.drop _ (jsSpliceInsert s.messages (min d.index s.messages.length) d.message) = _
    rw [jsSpliceInsert]
    have hsplit : s.messages.take (min d.index s.messages.length)
          ++ d.message :: s.messages.drop (min d.index s.messages.length)
        = (s.messages.take (min d.index s.messages.length) ++ [d.message])
          ++ s.messages.drop (min d.index s.messages.length) := by
      simp
    rw [hsplit, List.drop_left' (by simp [htl])]
  · rw [hout]

/-- Witness for `handleUndoDelete_restores` at a concrete state: snapshot index
3 exceeds the current length 1, so the message is appended at position 1. -/
theorem handleUndoDelete_restores_witness :
    (handleUndoDelete
        { messages := [{ id := 1, text := "a" }],
          lastDeleted := some { message := { id := 2, text := "b" }, index := 3 } }).messages
      = [{ id := 1, text := "a" }, { id := 2, text := "b" }] ∧
    handleUndoDelete (handleUndoDelete
        { messages := [{ id := 1, text := "a" }],
          lastDeleted := some { message := { id := 2, text := "b" }, index := 3 } })
      = handleUndoDelete
        { messages := [{ id := 1, text := "a" }],
          lastDeleted := some { message := { id := 2, text := "b" }, index := 3 } } := by
  have h := handleUndoDelete_restores
    { messages := [{ id := 1, text := "a" }],
      lastDeleted := some { message := { id := 2, text := "b" }, index := 3 } }
    { message := { id := 2, text := "b" }, index := 3 } rfl
  exact ⟨by decide, h.2.2.2.2.2⟩

/-! ## Gateway pre-network phase (`src/services/youtubeService.ts`)

Each operation's behaviour up to (and excluding) its first network request:
either a precondition error thrown before any request, or the request itself. -/

/-- First step of a Gateway operation: a precondition failure thrown before
any network activity, or the network request that is issued. -/
inductive GatewayStep where
  | precondError (msg : String)
  | request (url : String)
deriving DecidableEq, Repr

/-- Pre-network phase of `fetchLiveChatId` (`youtubeService.ts` lines 28-38):
`if (!token) throw new Error("Access Token is required")`, then `fetch`. -/
def fetchLiveChatIdStep (videoId token : String) : GatewayStep :=
  if token.isEmpty then .precondError "Access Token is required"
  else .request
    ("https://www.googleapis.com/youtube/v3/videos?part=liveStreamingDetails,snippet&id="
      ++ videoId)

/-- Pre-network phase of `sendMessageToChat` (`youtubeService.ts` lines 61-84). -/
def sendMessageToChatStep (liveChatId messageText token : String) : GatewayStep :=
  if token.isEmpty then .precondError "Access Token is required"
  else .request "https://www.googleapis.com/youtube/v3/liveChat/messages?part=snippet"

/-- Pre-network phase of `fetchChatMessages` (`youtubeService.ts` lines 123-135). -/
def fetchChatMessagesStep (liveChatId token : String) (pageToken : Option String) :
    GatewayStep :=
  if token.isEmpty then .precondError "Access Token is required"
  else .request
    ("https://www.googleapis.com/youtube/v3/liveChat/messages?liveChatId=" ++ liveChatId
      ++ "&part=snippet,authorDetails"
      ++ (match pageToken with
          | some p => "&pageToken=" ++ p
          | none => ""))

/-- Pre-network phase of `refreshGoogleToken` (`youtubeService.ts` lines
145-157): the function posts to the token endpoint with no precondition check
on any of its arguments. -/
def refreshGoogleTokenStep (clientId clientSecret refreshToken : String) : GatewayStep :=
  .request "https://oauth2.googleapis.com/token"

/-- Pre-network phase of `exchangeCodeForTokens` (`youtubeService.ts` lines
167-180): posts to the token endpoint with no precondition check. -/
def exchangeCodeForTokensStep (clientId clientSecret code : String) : GatewayStep :=
  .request "https://oauth2.googleapis.com/token"

/-- C8 counterexample to the claim as stated: `refreshGoogleToken` called with
an empty (absent) refresh token issues its network request instead of failing
with a precondition error first. -/
theorem refreshGoogleTokenStep_counterexample :
    refreshGoogleTokenStep "cid" "secret" ""
      = GatewayStep.request "https://oauth2.googleapis.com/token" := rfl

/-- C8 (amended): the three operations that take an access token
(`fetchLiveChatId`, `sendMessageToChat`, `fetchChatMessages`) fail with the
precondition error "Access Token is required" before any network request when
the token is empty; the token exchange/refresh operations perform no such
precondition check and proceed straight to their network request even when
their token/code arguments are empty. -/
theorem gatewaySteps_token_precondition (videoId liveChatId messageText : String)
    (pageToken : Option String) (clientId clientSecret refreshToken code token : String)
    (h : token.isEmpty = true) :
    fetchLiveChatIdStep videoId token = .precondError "Access Token is required" ∧
    sendMessageToChatStep liveChatId messageText token
      = .precondError "Access Token is required" ∧
    fetchChatMessagesStep liveChatId token pageToken
      = .precondError "Access Token is required" ∧
    refreshGoogleTokenStep clientId clientSecret refreshToken
      = .request "https://oauth2.googleapis.com/token" ∧
    exchangeCodeForTokensStep clientId clientSecret code
      = .request "https://oauth2.googleapis.com/token" :=
  ⟨by rw [fetchLiveChatIdStep, if_pos h],
   by rw [sendMessageToChatStep, if_pos h],
   by rw [fetchChatMessagesStep.eq_def, if_pos h],
   rfl, rfl⟩

/-- Witness for `gatewaySteps_token_precondition` at concrete arguments with
an empty access token. -/
theorem gatewaySteps_token_precondition_witness :
    fetchLiveChatIdStep "vid1" "" = .precondError "Access Token is required" ∧
    refreshGoogleTokenStep "cid" "sec" ""
      = .request "https://oauth2.googleapis.com/token" :=
  ⟨(gatewaySteps_token_precondition "vid1" "chat1" "hello" none "cid" "sec" "" "" ""
      (by decide)).1,
   (gatewaySteps_token_precondition "vid1" "chat1" "hello" none "cid" "sec" "" "" ""
      (by decide)).2.2.2.1⟩

/-! ## Video-URL resolver (`extractVideoId` in `src/services/youtubeService.ts`)

The strict pattern
`(?:youtu\.be\/|youtube\.com\/(?:embed\/|v\/|watch\?v=|watch\?.+&v=|live\/))([^#&?]+)`
is embedded as an explicit matcher with JavaScript regex semantics: leftmost
match position, alternatives tried in written order with backtracking, greedy
`.+` (longest split first, `.` excludes line terminators), greedy one-or-more
capture of characters other than `#`, `&`, `?`. -/

/-- The character class `[#&?]` excluded by the capture group. -/
def isStopChar (c : Char) : Bool := c = '#' || c = '&' || c = '?'

/-- The capture group `([^#&?]+)`: greedy (nothing follows it in the pattern,
so it always takes the maximal run) and requiring at least one character. -/
def captureToken (s : List Char) : Option (List Char) :=
  if (s.takeWhile (fun c => !isStopChar c)).isEmpty then none
  else some (s.takeWhile (fun c => !isStopChar c))

/-- Match a literal pattern at the head of the input, returning the rest. -/
def litAt : List Char → List Char → Option (List Char)
  | [], s => some s
  | _ :: _, [] => none
  | p :: ps, c :: cs => if p = c then litAt ps cs else none

/-- Regex alternation on match results: first success wins. -/
def oalt : Option (List Char) → Option (List Char) → Option (List Char)
  | some x, _ => some x
  | none, y => y

/-- A literal alternative followed by the capture group. -/
def matchLitCapture (pat s : List Char) : Option (List Char) :=
  match litAt pat s with
  | some r => captureToken r
  | none => none

/-- JavaScript regex `.`: any character except a line terminator. -/
def isDotChar (c : Char) : Bool :=
  !(c = '\n' || c = '\r' || c.val = 0x2028 || c.val = 0x2029)

/-- Backtracking matcher for `.+&v=([^#&?]+)` (the tail of the
`watch\?.+&v=` alternative): greedy `.+` tries the longest split first;
the fuel argument is the length of the split currently tried. -/
def dotPlusAmpV (r : List Char) : Nat → Option (List Char)
  | 0 => none
  | k + 1 =>
      if (r.take (k + 1)).all isDotChar then
        oalt (matchLitCapture ['&', 'v', '='] (r.drop (k + 1))) (dotPlusAmpV r k)
      else dotPlusAmpV r k

/-- The inner alternation `embed\/|v\/|watch\?v=|watch\?.+&v=|live\/`,
tried after the literal `youtube.com/`. -/
def afterYoutubeCom (r : List Char) : Option (List Char) :=
  oalt (matchLitCapture ['e', 'm', 'b', 'e', 'd', '/'] r)
    (oalt (matchLitCapture ['v', '/'] r)
      (oalt (matchLitCapture ['w', 'a', 't', 'c', 'h', '?', 'v', '='] r)
        (oalt
          (match litAt ['w', 'a', 't', 'c', 'h', '?'] r with
           | some r2 => dotPlusAmpV r2 r2.length
           | none => none)
          (matchLitCapture ['l', 'i', 'v', 'e', '/'] r))))

/-- The outer alternation at one input position:
`youtu\.be\/` or `youtube\.com\/` followed by the inner alternation. -/
def tryMatchAt (s : List Char) : Option (List Char) :=
  oalt (matchLitCapture ['y', 'o', 'u', 't', 'u', '.', 'b', 'e', '/'] s)
    (match litAt ['y', 'o', 'u', 't', 'u', 'b', 'e', '.', 'c', 'o', 'm', '/'] s with
     | some r => afterYoutubeCom r
     | none => none)

/-- Unanchored search: try each position left to right (leftmost match). -/
def scanStrictPattern : List Char → Option (List Char)
  | [] => none
  | c :: rest => oalt (tryMatchAt (c :: rest)) (scanStrictPattern rest)

/-- The character class `[a-zA-Z0-9_-]` of the two fallbacks. -/
def isIdChar (c : Char) : Bool :=
  ('a' ≤ c && c ≤ 'z') || ('A' ≤ c && c ≤ 'Z') || ('0' ≤ c && c ≤ '9') ||
    c = '_' || c = '-'

/-- The loose fallback `([a-zA-Z0-9_-]{11})`: the first position with eleven
consecutive id characters wins, and exactly eleven are captured. -/
def scanLoose : List Char → Option (List Char)
  | [] => none
  | c :: rest =>
      if ((c :: rest).take 11).length = 11 && ((c :: rest).take 11).all isIdChar then
        some ((c :: rest).take 11)
      else scanLoose rest

/-- The two fallbacks of `extractVideoId` (`youtubeService.ts` lines 13-25):
a bare 11-character id, else the loose scan. -/
def fallbackExtract (d : List Char) : Option String :=
  if d.length = 11 && d.all isIdChar then some (String.mk d)
  else
    match scanLoose d with
    | some cap => some (String.mk cap)
    | none => none

/-- `extractVideoId` (`youtubeService.ts` lines 1-26): empty input gives
`null`; a strict-pattern match whose capture has exactly 11 characters is
returned; otherwise the fallbacks run on the whole input. -/
def extractVideoId (url : String) : Option String :=
  if url.data.isEmpty then none
  else
    match scanStrictPattern url.data with
    | some cap =>
        if cap.length = 11 then some (String.mk cap) else fallbackExtract url.data
    | none => fallbackExtract url.data

/-- An id character is none of the capture-stopping characters. -/
theorem isIdChar_ne_stop (c : Char) (h : isIdChar c = true) :
    c ≠ '#' ∧ c ≠ '&' ∧ c ≠ '?' := by
  simp only [isIdChar, Bool.or_eq_true, Bool.and_eq_true, decide_eq_true_eq] at h
  refine ⟨?_, ?_, ?_⟩ <;> rintro rfl <;> exact absurd h (by decide)

/-- The capture group consumes an id-only token whole. -/
theorem captureToken_of_idChars (t : List Char) (hne : t ≠ [])
    (hid : ∀ c ∈ t, isIdChar c = true) : captureToken t = some t := by
  have htw : t.takeWhile (fun c => !isStopChar c) = t := by
    rw [List.takeWhile_eq_self_iff]
    intro c hc
    obtain ⟨h1, h2, h3⟩ := isIdChar_ne_stop c (hid c hc)
    simp [isStopChar, h1, h2, h3]
  rw [captureToken, htw, if_neg]
  simp [hne]

theorem scanStrictPattern_watch (t : List Char) (hcap : captureToken t = some t) :
    scanStrictPattern
        ('h' :: 't' :: 't' :: 'p' :: 's' :: ':' :: '/' :: '/' :: 'w' :: 'w' :: 'w' ::
          '.' :: 'y' :: 'o' :: 'u' :: 't' :: 'u' :: 'b' :: 'e' :: '.' :: 'c' :: 'o' ::
          'm' :: '/' :: 'w' :: 'a' :: 't' :: 'c' :: 'h' :: '?' :: 'v' :: '=' :: t)
      = some t := by
  have e1 : scanStrictPattern
        ('h' :: 't' :: 't' :: 'p' :: 's' :: ':' :: '/' :: '/' :: 'w' :: 'w' :: 'w' ::
          '.' :: 'y' :: 'o' :: 'u' :: 't' :: 'u' :: 'b' :: 'e' :: '.' :: 'c' :: 'o' ::
          'm' :: '/' :: 'w' :: 'a' :: 't' :: 'c' :: 'h' :: '?' :: 'v' :: '=' :: t)
      = oalt
          (tryMatchAt
            ('y' :: 'o' :: 'u' :: 't' :: 'u' :: 'b' :: 'e' :: '.' :: 'c' :: 'o' ::
              'm' :: '/' :: 'w' :: 'a' :: 't' :: 'c' :: 'h' :: '?' :: 'v' :: '=' :: t))
          (scanStrictPattern
            ('o' :: 'u' :: 't' :: 'u' :: 'b' :: 'e' :: '.' :: 'c' :: 'o' ::
              'm' :: '/' :: 'w' :: 'a' :: 't' :: 'c' :: 'h' :: '?' :: 'v' :: '=' :: t)) := rfl
  have e2 : tryMatchAt
        ('y' :: 'o' :: 'u' :: 't' :: 'u' :: 'b' :: 'e' :: '.' :: 'c' :: 'o' ::
          'm' :: '/' :: 'w' :: 'a' :: 't' :: 'c' :: 'h' :: '?' :: 'v' :: '=' :: t)
      = oalt (captureToken t)
          (oalt (dotPlusAmpV ('v' :: '=' :: t) (t.length + 2)) none) := rfl
  rw [e1, e2, hcap]
  rfl

theorem scanStrictPattern_short (t : List Char) (hcap : captureToken t = some t) :
    scanStrictPattern
        ('h' :: 't' :: 't' :: 'p' :: 's' :: ':' :: '/' :: '/' ::
          'y' :: 'o' :: 'u' :: 't' :: 'u' :: '.' :: 'b' :: 'e' :: '/' :: t)
      = some t := by
  have e1 : scanStrictPattern
        ('h' :: 't' :: 't' :: 'p' :: 's' :: ':' :: '/' :: '/' ::
          'y' :: 'o' :: 'u' :: 't' :: 'u' :: '.' :: 'b' :: 'e' :: '/' :: t)
      = oalt
          (tryMatchAt ('y' :: 'o' :: 'u' :: 't' :: 'u' :: '.' :: 'b' :: 'e' :: '/' :: t))
          (scanStrictPattern ('o' :: 'u' :: 't' :: 'u' :: '.' :: 'b' :: 'e' :: '/' :: t)) := rfl
  have e2 : tryMatchAt ('y' :: 'o' :: 'u' :: 't' :: 'u' :: '.' :: 'b' :: 'e' :: '/' :: t)
      = oalt (captureToken t) none := rfl
  rw [e1, e2, hcap]
  rfl

theorem scanStrictPattern_embed (t : List Char) (hcap : captureToken t = some t) :
    scanStrictPattern
        ('h' :: 't' :: 't' :: 'p' :: 's' :: ':' :: '/' :: '/' :: 'w' :: 'w' :: 'w' ::
          '.' :: 'y' :: 'o' :: 'u' :: 't' :: 'u' :: 'b' :: 'e' :: '.' :: 'c' :: 'o' ::
          'm' :: '/' :: 'e' :: 'm' :: 'b' :: 'e' :: 'd' :: '/' :: t)
      = some t := by
  have e1 : scanStrictPattern
        ('h' :: 't' :: 't' :: 'p' :: 's' :: ':' :: '/' :: '/' :: 'w' :: 'w' :: 'w' ::
          '.' :: 'y' :: 'o' :: 'u' :: 't' :: 'u' :: 'b' :: 'e' :: '.' :: 'c' :: 'o' ::
          'm' :: '/' :: 'e' :: 'm' :: 'b' :: 'e' :: 'd' :: '/' :: t)
      = oalt
          (tryMatchAt
            ('y' :: 'o' :: 'u' :: 't' :: 'u' :: 'b' :: 'e' :: '.' :: 'c' :: 'o' ::
              'm' :: '/' :: 'e' :: 'm' :: 'b' :: 'e' :: 'd' :: '/' :: t))
          (scanStrictPattern
            ('o' :: 'u' :: 't' :: 'u' :: 'b' :: 'e' :: '.' :: 'c' :: 'o' ::
              'm' :: '/' :: 'e' :: 'm' :: 'b' :: 'e' :: 'd' :: '/' :: t)) := rfl
  have e2 : tryMatchAt
        ('y' :: 'o' :: 'u' :: 't' :: 'u' :: 'b' :: 'e' :: '.' :: 'c' :: 'o' ::
          'm' :: '/' :: 'e' :: 'm' :: 'b' :: 'e' :: 'd' :: '/' :: t)
      = oalt (captureToken t) none := rfl
  rw [e1, e2, hcap]
  rfl

theorem scanStrictPattern_live (t : List Char) (hcap : captureToken t = some t) :
    scanStrictPattern
        ('h' :: 't' :: 't' :: 'p' :: 's' :: ':' :: '/' :: '/' :: 'w' :: 'w' :: 'w' ::
          '.' :: 'y' :: 'o' :: 'u' :: 't' :: 'u' :: 'b' :: 'e' :: '.' :: 'c' :: 'o' ::
          'm' :: '/' :: 'l' :: 'i' :: 'v' :: 'e' :: '/' :: t)
      = some t := by
  have e1 : scanStrictPattern
        ('h' :: 't' :: 't' :: 'p' :: 's' :: ':' :: '/' :: '/' :: 'w' :: 'w' :: 'w' ::
          '.' :: 'y' :: 'o' :: 'u' :: 't' :: 'u' :: 'b' :: 'e' :: '.' :: 'c' :: 'o' ::
          'm' :: '/' :: 'l' :: 'i' :: 'v' :: 'e' :: '/' :: t)
      = oalt
          (tryMatchAt
            ('y' :: 'o' :: 'u' :: 't' :: 'u' :: 'b' :: 'e' :: '.' :: 'c' :: 'o' ::
              'm' :: '/' :: 'l' :: 'i' :: 'v' :: 'e' :: '/' :: t))
          (scanStrictPattern
            ('o' :: 'u' :: 't' :: 'u' :: 'b' :: 'e' :: '.' :: 'c' :: 'o' ::
              'm' :: '/' :: 'l' :: 'i' :: 'v' :: 'e' :: '/' :: t)) := rfl
  have e2 : tryMatchAt
        ('y' :: 'o' :: 'u' :: 't' :: 'u' :: 'b' :: 'e' :: '.' :: 'c' :: 'o' ::
          'm' :: '/' :: 'l' :: 'i' :: 'v' :: 'e' :: '/' :: t)
      = captureToken t := rfl
  rw [e1, e2, hcap]
  rfl

theorem extractVideoId_watch (t : List Char) (h11 : t.length = 11)
    (hid : ∀ c ∈ t, isIdChar c = true) :
    extractVideoId ("https://www.youtube.com/watch?v=" ++ String.mk t)
      = some (String.mk t) := by
  have hne : t ≠ [] := by
    intro h
    rw [h] at h11
    exact absurd h11 (by decide)
  have hcap := captureToken_of_idChars t hne hid
  have hdata : ("https://www.youtube.com/watch?v=" ++ String.mk t).data
      = 'h' :: 't' :: 't' :: 'p' :: 's' :: ':' :: '/' :: '/' :: 'w' :: 'w' :: 'w' ::
          '.' :: 'y' :: 'o' :: 'u' :: 't' :: 'u' :: 'b' :: 'e' :: '.' :: 'c' :: 'o' ::
          'm' :: '/' :: 'w' :: 'a' :: 't' :: 'c' :: 'h' :: '?' :: 'v' :: '=' :: t := rfl
  unfold extractVideoId
  rw [hdata, if_neg (by simp), scanStrictPattern_watch t hcap]
  dsimp only
  rw [if_pos h11]

theorem extractVideoId_short (t : List Char) (h11 : t.length = 11)
    (hid : ∀ c ∈ t, isIdChar c = true) :
    extractVideoId ("https://youtu.be/" ++ String.mk t) = some (String.mk t) := by
  have hne : t ≠ [] := by
    intro h
    rw [h] at h11
    exact absurd h11 (by decide)
  have hcap := captureToken_of_idChars t hne hid
  have hdata : ("https://youtu.be/" ++ String.mk t).data
      = 'h' :: 't' :: 't' :: 'p' :: 's' :: ':' :: '/' :: '/' ::
          'y' :: 'o' :: 'u' :: 't' :: 'u' :: '.' :: 'b' :: 'e' :: '/' :: t := rfl
  unfold extractVideoId
  rw [hdata, if_neg (by simp), scanStrictPattern_short t hcap]
  dsimp only
  rw [if_pos h11]

theorem extractVideoId_embed (t : List Char) (h11 : t.length = 11)
    (hid : ∀ c ∈ t, isIdChar c = true) :
    extractVideoId ("https://www.youtube.com/embed/" ++ String.mk t)
      = some (String.mk t) := by
  have hne : t ≠ [] := by
    intro h
    rw [h] at h11
    exact absurd h11 (by decide)
  have hcap := captureToken_of_idChars t hne hid
  have hdata : ("https://www.youtube.com/embed/" ++ String.mk t).data
      = 'h' :: 't' :: 't' :: 'p' :: 's' :: ':' :: '/' :: '/' :: 'w' :: 'w' :: 'w' ::
          '.' :: 'y' :: 'o' :: 'u' :: 't' :: 'u' :: 'b' :: 'e' :: '.' :: 'c' :: 'o' ::
          'm' :: '/' :: 'e' :: 'm' :: 'b' :: 'e' :: 'd' :: '/' :: t := rfl
  unfold extractVideoId
  rw [hdata, if_neg (by simp), scanStrictPattern_embed t hcap]
  dsimp only
  rw [if_pos h11]

theorem extractVideoId_live (t : List Char) (h11 : t.length = 11)
    (hid : ∀ c ∈ t, isIdChar c = true) :
    extractVideoId ("https://www.youtube.com/live/" ++ String.mk t)
      = some (String.mk t) := by
  have hne : t ≠ [] := by
    intro h
    rw [h] at h11
    exact absurd h11 (by decide)
  have hcap := captureToken_of_idChars t hne hid
  have hdata : ("https://www.youtube.com/live/" ++ String.mk t).data
      = 'h' :: 't' :: 't' :: 'p' :: 's' :: ':' :: '/' :: '/' :: 'w' :: 'w' :: 'w' ::
          '.' :: 'y' :: 'o' :: 'u' :: 't' :: 'u' :: 'b' :: 'e' :: '.' :: 'c' :: 'o' ::
          'm' :: '/' :: 'l' :: 'i' :: 'v' :: 'e' :: '/' :: t := rfl
  unfold extractVideoId
  rw [hdata, if_neg (by simp), scanStrictPattern_live t hcap]
  dsimp only
  rw [if_pos h11]

/-- C6: for every 11-character token over the video-id alphabet
`[A-Za-z0-9_-]` embedded in a standard-form YouTube URL (watch, short-link,
embed, `/live/`), `extractVideoId` returns exactly that token. -/
theorem extractVideoId_standard_forms (t : List Char) (h11 : t.length = 11)
    (hid : ∀ c ∈ t, isIdChar c = true) :
    extractVideoId ("https://www.youtube.com/watch?v=" ++ String.mk t)
      = some (String.mk t) ∧
    extractVideoId ("https://youtu.be/" ++ String.mk t) = some (String.mk t) ∧
    extractVideoId ("https://www.youtube.com/embed/" ++ String.mk t)
      = some (String.mk t) ∧
    extractVideoId ("https://www.youtube.com/live/" ++ String.mk t)
      = some (String.mk t) :=
  ⟨extractVideoId_watch t h11 hid, extractVideoId_short t h11 hid,
   extractVideoId_embed t h11 hid, extractVideoId_live t h11 hid⟩

/-- Witness for `extractVideoId_standard_forms` at the spec's example token
`dQw4w9WgXcQ`. -/
theorem extractVideoId_standard_forms_witness :
    ("dQw4w9WgXcQ".data.length = 11) ∧
    extractVideoId ("https://www.youtube.com/watch?v=" ++ String.mk "dQw4w9WgXcQ".data)
      = some (String.mk "dQw4w9WgXcQ".data) ∧
    extractVideoId ("https://youtu.be/" ++ String.mk "dQw4w9WgXcQ".data)
      = some (String.mk "dQw4w9WgXcQ".data) :=
  ⟨by decide,
   (extractVideoId_standard_forms "dQw4w9WgXcQ".data (by decide) (by decide)).1,
   (extractVideoId_standard_forms "dQw4w9WgXcQ".data (by decide) (by decide)).2.1⟩

end YTStreamSender
